import Mathlib

/-!
Shallow embedding of the weather-data resolution logic of the
Weather2Go dashboard (src/app.py, function get_weather_data), together
with proofs of the specification claims about it.

Numeric JSON fields are modelled as rationals; the derived wind chill,
which involves a fractional power, lives in the reals.  HTTP calls are
modelled by an environment supplying the outcome of each of the three
requests (points, forecast, grid data).
-/

set_option maxRecDepth 4000

/-- The static Michigan city table of app.py, in source order:
lowercase key mapped to (latitude, longitude). -/
def michigan_cities : List (String × ℚ × ℚ) :=
  [("detroit", 42.3314, -83.0458),
   ("ann arbor", 42.2808, -83.7430),
   ("grand rapids", 42.9633, -85.6789),
   ("lansing", 42.7335, -84.5555),
   ("flint", 43.0125, -83.6875),
   ("dearborn", 42.3222, -83.1763),
   ("sterling heights", 42.5800, -83.0300),
   ("troy", 42.5801, -83.1481),
   ("warren", 42.4805, -83.0267),
   ("livonia", 42.4172, -83.3711),
   ("kalamazoo", 42.2917, -85.5872),
   ("saginaw", 43.4209, -83.9545),
   ("muskegon", 43.2343, -86.2474),
   ("jackson", 42.2411, -84.4054),
   ("battle creek", 42.3202, -85.1832)]

/-- Dictionary lookup in the city table (first matching key). -/
def lookupCity (k : String) : Option (ℚ × ℚ) :=
  (michigan_cities.find? (fun p => p.1 == k)).map (fun p => p.2)

/-- Python str.lower restricted to ASCII letters, character by
character. -/
def pyLower (s : String) : String :=
  ⟨s.data.map Char.toLower⟩

/-- Python str.strip with no argument: remove leading and trailing
whitespace. -/
def pyStrip (s : String) : String :=
  ⟨((s.data.dropWhile Char.isWhitespace).reverse.dropWhile Char.isWhitespace).reverse⟩

/-- Line 124 of app.py: the input is lowercased, then stripped, then
looked up in the table. -/
def resolveCoord (city : String) : Option (ℚ × ℚ) :=
  lookupCity (pyStrip (pyLower city))

/-- Python str.title restricted to ASCII: a letter is uppercased when the
preceding character is not a letter, lowercased otherwise. -/
def titleAux : Bool → List Char → List Char
  | _, [] => []
  | prev, c :: cs => (if prev then c.toLower else c.toUpper) :: titleAux c.isAlpha cs

/-- Python str.title on a string. -/
def titleCase (s : String) : String :=
  ⟨titleAux false s.data⟩

/-- Lexicographic strict order on character lists by code point, the
order Python uses to compare strings. -/
def lexLt : List Char → List Char → Bool
  | [], [] => false
  | [], _ :: _ => true
  | _ :: _, [] => false
  | a :: as, b :: bs =>
    if a.toNat < b.toNat then true
    else if b.toNat < a.toNat then false
    else lexLt as bs

/-- Python string comparison: lexicographic by code point. -/
def strLt (a b : String) : Bool :=
  lexLt a.data b.data

/-- Stable insertion of a string into an ascending list (Python sorted). -/
def insertLe (x : String) : List String → List String
  | [] => [x]
  | y :: ys => if strLt x y then x :: y :: ys else y :: insertLe x ys

/-- Boolean check that a list of strings is strictly ascending. -/
def strictSortedB : List String → Bool
  | [] => true
  | [_] => true
  | a :: b :: rest => strLt a b && strictSortedB (b :: rest)

/-- Python sorted on a list of strings (ascending, stable). -/
def pySorted : List String → List String
  | [] => []
  | x :: xs => insertLe x (pySorted xs)

/-- Line 128 of app.py: the suggestion list shown on a failed lookup,
sorted keys of the table, title-cased. -/
def availableCities : List String :=
  (pySorted (michigan_cities.map (fun p => p.1))).map titleCase

/-- Tokenizer of Python str.split() with no argument: accumulate runs of
non-whitespace characters, dropping the whitespace between them. -/
def splitWsAux : List Char → List Char → List (List Char)
  | [], acc => if acc = [] then [] else [acc.reverse]
  | c :: cs, acc =>
    if c.isWhitespace then
      if acc = [] then splitWsAux cs [] else acc.reverse :: splitWsAux cs []
    else splitWsAux cs (c :: acc)

/-- Python str.split() with no argument: split on runs of whitespace,
dropping empty pieces. -/
def pySplit (s : String) : List String :=
  (splitWsAux s.data []).map (fun l => ⟨l⟩)

/-- Split a character list at every dot (Python str.split with a dot
argument, as float parsing needs it). -/
def splitOnDot : List Char → List (List Char)
  | [] => [[]]
  | c :: cs =>
    match splitOnDot cs with
    | [] => [[]]
    | r :: rs => if c = '.' then [] :: r :: rs else (c :: r) :: rs

/-- Read a nonempty all-digit character list as a number. -/
def digitsToNat (l : List Char) : Option ℕ :=
  if l = [] then none
  else if l.all Char.isDigit then
    some (l.foldl (fun n c => n * 10 + (c.toNat - '0'.toNat)) 0)
  else none

/-- Python float() on a string, restricted to the plain decimal forms
(optional sign, integer part, optional fractional part); other
accepted Python spellings (exponents, inf, nan) are treated as parse
failures, which no claim exercises. -/
def parseFloat (s : String) : Option ℚ :=
  let t := (pyStrip s).data
  let sg : ℚ := match t with | '-' :: _ => -1 | _ => 1
  let u := match t with | '-' :: rest => rest | '+' :: rest => rest | _ => t
  match splitOnDot u with
  | [i] => (digitsToNat i).map (fun n => sg * (n : ℚ))
  | [i, f] =>
    if i = [] ∧ f = [] then none
    else
      match (if i = [] then some 0 else digitsToNat i),
            (if f = [] then some 0 else digitsToNat f) with
      | some ip, some fp => some (sg * ((ip : ℚ) + (fp : ℚ) / 10 ^ f.length))
      | _, _ => none
  | _ => none

/-- Line 160 of app.py: float(current['windSpeed'].split()[0]).
none models the IndexError (empty split) or ValueError (non-numeric
token) that the generic exception handler would catch. -/
def parseWindSpeed (s : String) : Option ℚ :=
  match pySplit s with
  | [] => none
  | tok :: _ => parseFloat tok

/-- Lines 162-164 of app.py: a windDirection string passes through
unchanged unless it is literally "Calm", which becomes "N". -/
def normalizeWindDir (wd : String) : String :=
  if wd ≠ "Calm" then wd else "N"

/-- A JSON scalar as the grid-data block reads it: jnull models an
absent value key or an explicit null (both Python None), jnum a number,
jstr a string. -/
inductive JVal where
  | jnull : JVal
  | jnum (q : ℚ) : JVal
  | jstr (s : String) : JVal
deriving DecidableEq

/-- Python truthiness of such a scalar: None is falsy, a number is
truthy when nonzero, a string when nonempty. -/
def truthy : JVal → Bool
  | .jnull => false
  | .jnum q => q != 0
  | .jstr s => s != ""

/-- Python float() on such a scalar: numbers pass through, strings go
through the string parser, None raises (none models the raised
exception). -/
def jfloat : JVal → Option ℚ
  | .jnull => none
  | .jnum q => some q
  | .jstr s => parseFloat s

/-- One element of a grid-data time series. -/
structure GridEntry where
  value : JVal
deriving DecidableEq

/-- The three time series read from the grid-data response properties;
none models a property that is absent or has no values list, and an
empty list models an empty values list (both falsy in Python). -/
structure GridProps where
  relativeHumidity : Option (List GridEntry)
  visibility : Option (List GridEntry)
  quantitativePrecipitation : Option (List GridEntry)
deriving DecidableEq

/-- Lines 184-185 of app.py: the humidity assignment.  The first
entry's value is used only when truthy, and float() is applied to the
raw value; none models a float() fault. -/
def humidityStep (props : GridProps) : Option ℚ :=
  match props.relativeHumidity with
  | some (e :: _) => if truthy e.value then jfloat e.value else some 50
  | _ => some 50

/-- Lines 187-190 of app.py: the visibility assignment.  When the
series is present, a falsy first value yields 10000 (meters), and the
meters value is converted to miles; none models a float() fault. -/
def visibilityStep (props : GridProps) : Option ℚ :=
  match props.visibility with
  | some (e :: _) =>
    (if truthy e.value then jfloat e.value else some 10000).map
      (fun visibility_m => visibility_m / 1609.34)
  | _ => some 10.0

/-- Lines 193-195 of app.py: the precipitation assignment, mm converted
to inches, with a falsy guard on both the value and qpf; none models a
float() fault. -/
def precipStep (props : GridProps) : Option ℚ :=
  match props.quantitativePrecipitation with
  | some (e :: _) =>
    (if truthy e.value then jfloat e.value else some 0).map
      (fun qpf => if qpf = 0 then 0 else qpf / 25.4)
  | _ => some 0.0

/-- Lines 183-196 of app.py: the three assignments run in order inside
one try block; a raised float() aborts the rest of the block but keeps
the values already assigned, the remaining fields staying at their
defaults. -/
def gridExtract (props : GridProps) : ℚ × ℚ × ℚ :=
  match humidityStep props with
  | none => (50, 10.0, 0.0)
  | some h =>
    match visibilityStep props with
    | none => (h, 10.0, 0.0)
    | some vis =>
      match precipStep props with
      | none => (h, vis, 0.0)
      | some p => (h, vis, p)

/-- Outcome of one HTTP request: timeout, connection failure, or a
response with a status code and a decoded body. -/
inductive HttpResult (α : Type) where
  | timeout : HttpResult α
  | connError : HttpResult α
  | resp (status : ℕ) (body : α) : HttpResult α
deriving DecidableEq

/-- The parts of the points-endpoint properties that the code reads:
whether the forecast key is present and whether the gridpoints key is
present (their URL strings are abstracted away; the environment supplies
the outcome of requesting them). -/
structure PointsProps where
  hasForecast : Bool
  hasGridpoints : Bool
deriving DecidableEq

/-- Body of the points response; none models a body with no properties
key. -/
structure PointsBody where
  properties : Option PointsProps
deriving DecidableEq

/-- First forecast period as read by the code; none fields model absent
keys (a KeyError on access). -/
structure ForecastPeriod where
  temperature : Option ℚ
  windSpeed : Option String
  windDirection : Option String
  isDaytime : Option Bool
deriving DecidableEq

/-- Properties of the forecast response; periods none models an absent
periods key. -/
structure ForecastProps where
  periods : Option (List ForecastPeriod)
deriving DecidableEq

/-- Body of the forecast response. -/
structure ForecastBody where
  properties : Option ForecastProps
deriving DecidableEq

/-- The environment of one call to get_weather_data: the outcome of each
of the three network requests.  The grid body is Option GridProps, none
modelling a body that fails to decode or has no properties key — an
exception raised before any field is assigned; faults inside the
field-extraction block itself are carried by the entry values. -/
structure FetchEnv where
  points : HttpResult PointsBody
  forecast : HttpResult ForecastBody
  grid : HttpResult (Option GridProps)

/-- The failure modes of get_weather_data, one per distinct handler or
early return in app.py. -/
inductive FetchErr where
  | cityNotFound (city : String) (available : List String)
  | locationStatus (code : ℕ)
  | forecastStatus (code : ℕ)
  | missingField (field : String)
  | timedOut
  | connectionFailed
  | otherError
deriving DecidableEq

/-- The record returned by get_weather_data (field names follow the
spec data model; the dict keys of app.py carry the same data). -/
structure WeatherObservation where
  city : String
  temperature_f : ℚ
  wind_chill_f : ℝ
  humidity_pct : ℚ
  pressure_in : ℚ
  visibility_mi : ℚ
  wind_direction : String
  wind_speed_mph : ℚ
  precipitation_in : ℚ
  time_of_day : String

/-- Lines 200-204 of app.py: the NWS wind-chill formula, applied only
when the temperature is at most 50 and the wind speed above 3. -/
noncomputable def wind_chill (temp wind_speed : ℚ) : ℝ :=
  if temp ≤ 50 ∧ 3 < wind_speed then
    35.74 + 0.6215 * (temp : ℝ) - 35.75 * ((wind_speed : ℝ) ^ (0.16 : ℝ))
      + 0.4275 * (temp : ℝ) * ((wind_speed : ℝ) ^ (0.16 : ℝ))
  else (temp : ℝ)

/-- Lines 136-144 of app.py: the points request; non-200 is an error,
and the properties and forecast keys must be present. -/
def pointsStage (r : HttpResult PointsBody) : Except FetchErr PointsProps :=
  match r with
  | .timeout => .error .timedOut
  | .connError => .error .connectionFailed
  | .resp status body =>
    if status ≠ 200 then .error (.locationStatus status)
    else
      match body.properties with
      | none => .error (.missingField "properties")
      | some p => if p.hasForecast then .ok p else .error (.missingField "forecast")

/-- Lines 147-156 of app.py: the forecast request; non-200 is an error,
and the first period of properties.periods is taken. -/
def forecastStage (r : HttpResult ForecastBody) : Except FetchErr ForecastPeriod :=
  match r with
  | .timeout => .error .timedOut
  | .connError => .error .connectionFailed
  | .resp status body =>
    if status ≠ 200 then .error (.forecastStatus status)
    else
      match body.properties with
      | none => .error (.missingField "properties")
      | some fp =>
        match fp.periods with
        | none => .error (.missingField "periods")
        | some [] => .error .otherError
        | some (c :: _) => .ok c

/-- Lines 159-167 of app.py: extraction of the four required fields of
the first period, in source order; a missing key is a KeyError naming
the field, an unparseable wind speed falls to the generic handler. -/
def periodFields (current : ForecastPeriod) :
    Except FetchErr (ℚ × ℚ × String × Bool) :=
  match current.temperature with
  | none => .error (.missingField "temperature")
  | some temp =>
    match current.windSpeed with
    | none => .error (.missingField "windSpeed")
    | some ws =>
      match parseWindSpeed ws with
      | none => .error .otherError
      | some v =>
        match current.windDirection with
        | none => .error (.missingField "windDirection")
        | some wd =>
          match current.isDaytime with
          | none => .error (.missingField "isDaytime")
          | some day => .ok (temp, v, normalizeWindDir wd, day)

/-- Lines 177-198 of app.py: the body of the best-effort grid request.
Any non-200 status or undecodable body leaves the defaults in place;
a readable 200 body goes through the sequential extraction. -/
def gridCall (g : HttpResult (Option GridProps)) : ℚ × ℚ × ℚ :=
  match g with
  | .timeout => (50, 10.0, 0.0)
  | .connError => (50, 10.0, 0.0)
  | .resp status body =>
    if status = 200 then
      match body with
      | some props => gridExtract props
      | none => (50, 10.0, 0.0)
    else (50, 10.0, 0.0)

/-- Lines 169-198 of app.py: the enrichment step runs only when the
gridpoints key was present in the points properties; otherwise the
defaults humidity 50, visibility 10.0, precipitation 0.0 stand. -/
def gridStage (hasGrid : Bool) (g : HttpResult (Option GridProps)) : ℚ × ℚ × ℚ :=
  if hasGrid then gridCall g else (50, 10.0, 0.0)

/-- The gridpoints flag that the enrichment step of a run sees: read
from the points stage when it succeeded, irrelevant otherwise. -/
def pointsGridFlag (env : FetchEnv) : Bool :=
  match pointsStage env.points with
  | .ok p => p.hasGridpoints
  | .error _ => false

/-- get_weather_data of app.py (lines 102-233): resolve the city, chain
the points and forecast requests, extract the period fields, run the
best-effort grid enrichment, and assemble the observation record with
the derived wind chill and the constant pressure 29.9. -/
noncomputable def get_weather_data (city : String) (env : FetchEnv) :
    Except FetchErr WeatherObservation :=
  match resolveCoord city with
  | none => .error (.cityNotFound city availableCities)
  | some _ =>
    match pointsStage env.points with
    | .error e => .error e
    | .ok pprops =>
      match forecastStage env.forecast with
      | .error e => .error e
      | .ok current =>
        match periodFields current with
        | .error e => .error e
        | .ok (temp, wind_speed, wind_direction, isDay) =>
          let hvp := gridStage pprops.hasGridpoints env.grid
          Except.ok
            { city := city
              temperature_f := temp
              wind_chill_f := wind_chill temp wind_speed
              humidity_pct := hvp.1
              pressure_in := 29.9
              visibility_mi := hvp.2.1
              wind_direction := wind_direction
              wind_speed_mph := wind_speed
              precipitation_in := hvp.2.2
              time_of_day := if isDay then "Day" else "Night" }

/-- Whether an Except value is a success. -/
def isSuccess {ε α : Type} : Except ε α → Bool
  | .ok _ => true
  | .error _ => false

/-- The ways the best-effort enrichment step can fail as a whole: the
grid URL absent from the points properties, a timeout or connection
failure, a non-200 status, an undecodable body, or a body whose three
series are all missing. -/
def enrichFails (hasGrid : Bool) (g : HttpResult (Option GridProps)) : Prop :=
  hasGrid = false ∨
    match g with
    | .timeout => True
    | .connError => True
    | .resp status body =>
      status ≠ 200 ∨ body = none ∨ body = some ⟨none, none, none⟩

deriving instance DecidableEq for Except

def goodPeriod : ForecastPeriod := ⟨some 45, some "12 mph", some "NW", some true⟩

def envOf (per : ForecastPeriod) (g : HttpResult (Option GridProps)) : FetchEnv :=
  ⟨.resp 200 ⟨some ⟨true, true⟩⟩, .resp 200 ⟨some ⟨some [per]⟩⟩, g⟩

def noTempPeriod : ForecastPeriod := ⟨none, some "12 mph", some "NW", some true⟩

def nnwPeriod : ForecastPeriod := ⟨some 45, some "12 mph", some "NNW", some true⟩

def rangePeriod : ForecastPeriod := ⟨some 45, some "10 to 15 mph", some "NW", some true⟩

def gridVisNull : GridProps := ⟨none, some [⟨.jnull⟩], none⟩

def gridHum0 : GridProps := ⟨some [⟨.jnum 0⟩], none, none⟩

def gridPartial : GridProps := ⟨some [⟨.jnum 80⟩], some [⟨.jstr "bogus"⟩], none⟩

def gridHumStr0 : GridProps := ⟨some [⟨.jstr "0"⟩], none, none⟩

noncomputable def obsW : WeatherObservation :=
  { city := "detroit", temperature_f := 45, wind_chill_f := wind_chill 45 12,
    humidity_pct := 50, pressure_in := 29.9, visibility_mi := 10.0,
    wind_direction := "NW", wind_speed_mph := 12, precipitation_in := 0.0,
    time_of_day := "Day" }

noncomputable def obsHumStr0 : WeatherObservation :=
  { city := "detroit", temperature_f := 45, wind_chill_f := wind_chill 45 12,
    humidity_pct := 0, pressure_in := 29.9, visibility_mi := 10.0,
    wind_direction := "NW", wind_speed_mph := 12, precipitation_in := 0.0,
    time_of_day := "Day" }

lemma ten_rpow_pow : ((10:ℝ) ^ (0.16:ℝ)) ^ (25:ℕ) = 10000 := by
  rw [← Real.rpow_natCast ((10:ℝ) ^ (0.16:ℝ)) 25, ← Real.rpow_mul (by norm_num : (0:ℝ) ≤ 10)]
  have h4 : (0.16:ℝ) * ((25:ℕ):ℝ) = ((4:ℕ):ℝ) := by norm_num
  rw [h4, Real.rpow_natCast]
  norm_num

lemma ten_rpow_lb : (1.4454 : ℝ) ≤ (10:ℝ) ^ (0.16:ℝ) := by
  have hx : (0:ℝ) ≤ (10:ℝ) ^ (0.16:ℝ) := Real.rpow_nonneg (by norm_num) _
  have h : (1.4454:ℝ) ^ (25:ℕ) ≤ ((10:ℝ) ^ (0.16:ℝ)) ^ (25:ℕ) := by
    rw [ten_rpow_pow]; norm_num
  exact le_of_pow_le_pow_left₀ (by norm_num) hx h

lemma ten_rpow_ub : (10:ℝ) ^ (0.16:ℝ) ≤ 1.4455 := by
  have h : ((10:ℝ) ^ (0.16:ℝ)) ^ (25:ℕ) ≤ (1.4455:ℝ) ^ (25:ℕ) := by
    rw [ten_rpow_pow]; norm_num
  exact le_of_pow_le_pow_left₀ (by norm_num) (by norm_num) h

lemma wind_chill_30_10_eq :
    wind_chill 30 10 = 54.385 - 22.925 * ((10:ℝ) ^ (0.16:ℝ)) := by
  unfold wind_chill
  rw [if_pos (by norm_num : (30:ℚ) ≤ 50 ∧ (3:ℚ) < 10)]
  have hb : (((10:ℚ)):ℝ) = (10:ℝ) := by norm_num
  have ht : (((30:ℚ)):ℝ) = (30:ℝ) := by norm_num
  rw [hb, ht]
  ring

/-- Claim C1 (amended): the derived wind chill follows the NWS formula
exactly when the temperature is at most 50 and the wind speed above 3,
and equals the temperature otherwise; at (30, 10) it is about 21.25
(not 19.99) to within 1e-2, at (60, 10) it is exactly 60, and at
(30, 2) it is exactly 30. -/
theorem wind_chill_formula_spec :
    (∀ t v : ℚ,
      ((t ≤ 50 ∧ 3 < v) →
        wind_chill t v =
          35.74 + 0.6215 * (t : ℝ) - 35.75 * ((v : ℝ) ^ (0.16 : ℝ))
            + 0.4275 * (t : ℝ) * ((v : ℝ) ^ (0.16 : ℝ)))
      ∧ (¬ (t ≤ 50 ∧ 3 < v) → wind_chill t v = (t : ℝ)))
    ∧ |wind_chill 30 10 - 21.25| ≤ 1e-2
    ∧ wind_chill 60 10 = 60
    ∧ wind_chill 30 2 = 30 := by
  refine ⟨fun t v => ⟨fun h => ?_, fun h => ?_⟩, ?_, ?_, ?_⟩
  · unfold wind_chill; rw [if_pos h]
  · unfold wind_chill; rw [if_neg h]
  · rw [wind_chill_30_10_eq, abs_le]
    constructor <;> linarith [ten_rpow_lb, ten_rpow_ub]
  · unfold wind_chill
    rw [if_neg (by norm_num : ¬ ((60:ℚ) ≤ 50 ∧ (3:ℚ) < 10))]
    norm_num
  · unfold wind_chill
    rw [if_neg (by norm_num : ¬ ((30:ℚ) ≤ 50 ∧ (3:ℚ) < 2))]
    norm_num

/-- Claim C1, counterexample: at temperature 30 and wind speed 10 the
code's wind chill differs from the spec's fixture 19.99 by more than
1e-2. -/
theorem wind_chill_fixture_cex : 1e-2 < |wind_chill 30 10 - 19.99| := by
  rw [wind_chill_30_10_eq]
  have h := ten_rpow_ub
  rw [abs_of_pos (by linarith)]
  linarith

/-- Witness for C1: the formula branch applies at (30, 10). -/
theorem wind_chill_formula_spec_witness :
    ((30:ℚ) ≤ 50 ∧ (3:ℚ) < 10) ∧
      wind_chill 30 10 =
        35.74 + 0.6215 * ((30:ℚ) : ℝ) - 35.75 * (((10:ℚ) : ℝ) ^ (0.16:ℝ))
          + 0.4275 * ((30:ℚ) : ℝ) * (((10:ℚ) : ℝ) ^ (0.16:ℝ)) :=
  ⟨by norm_num, (wind_chill_formula_spec.1 30 10).1 (by norm_num)⟩

lemma resolveCoord_detroit : resolveCoord "detroit" = some (42.3314, -83.0458) := by decide!

lemma periodFields_good : periodFields goodPeriod = .ok (45, 12, "NW", true) := by decide!

lemma envOf_eval (per : ForecastPeriod) (g : HttpResult (Option GridProps))
    (t v : ℚ) (wd : String) (day : Bool)
    (h : periodFields per = .ok (t, v, wd, day)) :
    get_weather_data "detroit" (envOf per g) =
      Except.ok
        { city := "detroit", temperature_f := t, wind_chill_f := wind_chill t v,
          humidity_pct := (gridCall g).1, pressure_in := 29.9,
          visibility_mi := (gridCall g).2.1, wind_direction := wd,
          wind_speed_mph := v, precipitation_in := (gridCall g).2.2,
          time_of_day := if day then "Day" else "Night" } := by
  unfold get_weather_data envOf
  simp [resolveCoord_detroit, h, pointsStage, forecastStage, gridStage]

lemma gridCall_str0 : gridCall (.resp 200 (some gridHumStr0)) = (0, 10.0, 0.0) := by decide!

lemma get_ok_inv (city : String) (env : FetchEnv) (o : WeatherObservation)
    (h : get_weather_data city env = .ok o) :
    ∃ (pp : PointsProps) (cur : ForecastPeriod) (temp v : ℚ) (wd : String) (day : Bool),
      pointsStage env.points = .ok pp ∧
      forecastStage env.forecast = .ok cur ∧
      periodFields cur = .ok (temp, v, wd, day) ∧
      o = { city := city
            temperature_f := temp
            wind_chill_f := wind_chill temp v
            humidity_pct := (gridStage pp.hasGridpoints env.grid).1
            pressure_in := 29.9
            visibility_mi := (gridStage pp.hasGridpoints env.grid).2.1
            wind_direction := wd
            wind_speed_mph := v
            precipitation_in := (gridStage pp.hasGridpoints env.grid).2.2
            time_of_day := if day then "Day" else "Night" } := by
  unfold get_weather_data at h
  split at h
  · exact Except.noConfusion h
  · split at h
    · exact Except.noConfusion h
    · rename_i pp hpp
      split at h
      · exact Except.noConfusion h
      · rename_i cur hcur
        split at h
        · exact Except.noConfusion h
        · rename_i temp v wd day hper
          simp only [] at h
          injection h with h
          exact ⟨pp, cur, temp, v, wd, day, hpp, hcur, hper, h.symm⟩

lemma gridStage_default (flag : Bool) (g : HttpResult (Option GridProps))
    (h : enrichFails flag g) : gridStage flag g = (50, 10.0, 0.0) := by
  cases flag
  · rfl
  · cases g with
    | timeout => rfl
    | connError => rfl
    | resp s b =>
      rcases h with h | h
      · exact absurd h (by simp)
      · rcases h with hs | hb | hb
        · simp [gridStage, gridCall, hs]
        · subst hb; simp [gridStage, gridCall]
        · subst hb
          simp [gridStage, gridCall, gridExtract, humidityStep, visibilityStep,
            precipStep]

/-- Claim C2 (amended): when the best-effort grid-data call itself fails
(absent URL, timeout, connection failure, non-200, bad body, missing
series), a successful fetch carries the defaults humidity 50,
visibility 10.0, precipitation 0.0; the enrichment outcome never
changes whether the fetch succeeds; and inside a readable 200 body a
faulting field aborts only the rest of the block, keeping the fields
already assigned and defaulting the remaining ones. -/
theorem grid_enrichment_nonfatal :
    (∀ (city : String) (env : FetchEnv) (o : WeatherObservation),
      get_weather_data city env = Except.ok o →
      enrichFails (pointsGridFlag env) env.grid →
      o.humidity_pct = 50 ∧ o.visibility_mi = 10.0 ∧ o.precipitation_in = 0.0)
    ∧ (∀ (city : String) (env : FetchEnv) (g g' : HttpResult (Option GridProps)),
      isSuccess (get_weather_data city { env with grid := g }) =
        isSuccess (get_weather_data city { env with grid := g' }))
    ∧ (∀ props : GridProps, humidityStep props = none →
      gridExtract props = (50, 10.0, 0.0))
    ∧ (∀ (props : GridProps) (h : ℚ), humidityStep props = some h →
      visibilityStep props = none → gridExtract props = (h, 10.0, 0.0))
    ∧ (∀ (props : GridProps) (h vis : ℚ), humidityStep props = some h →
      visibilityStep props = some vis → precipStep props = none →
      gridExtract props = (h, vis, 0.0)) := by
  refine ⟨?_, ?_, ?_, ?_, ?_⟩
  · intro city env o hok hfail
    obtain ⟨pp, cur, temp, v, wd, day, hpp, hcur, hper, ho⟩ := get_ok_inv city env o hok
    have hflag : pointsGridFlag env = pp.hasGridpoints := by
      unfold pointsGridFlag; rw [hpp]
    rw [hflag] at hfail
    have hdef := gridStage_default pp.hasGridpoints env.grid hfail
    subst ho
    rw [hdef]
    exact ⟨rfl, rfl, rfl⟩
  · intro city env g g'
    obtain ⟨p, f, g0⟩ := env
    show isSuccess (get_weather_data city ⟨p, f, g⟩) =
      isSuccess (get_weather_data city ⟨p, f, g'⟩)
    unfold get_weather_data
    rcases hr : resolveCoord city with _ | c <;> simp only [hr]
    rcases hp : pointsStage p with e | pp <;> simp only [hp]
    rcases hf : forecastStage f with e | cur <;> simp only [hf]
    rcases hq : periodFields cur with e | ⟨t, v, wd, day⟩ <;> simp only [hq]
    rfl
  · intro props h1
    simp [gridExtract, h1]
  · intro props h h1 h2
    simp [gridExtract, h1, h2]
  · intro props h vis h1 h2 h3
    simp [gridExtract, h1, h2, h3]

/-- Claim C2, counterexample: a 200 grid body with humidity 80 followed
by an unparseable visibility string leaves the fetch succeeding with
humidity 80 — not the default 50 the claim requires on a malformed
field — while visibility falls back to its default. -/
theorem grid_partial_enrichment_cex :
    (get_weather_data "detroit" (envOf goodPeriod (.resp 200 (some gridPartial)))).map
        WeatherObservation.humidity_pct = Except.ok 80
    ∧ (get_weather_data "detroit" (envOf goodPeriod (.resp 200 (some gridPartial)))).map
        WeatherObservation.visibility_mi = Except.ok 10.0
    ∧ (50 : ℚ) < 80 := by
  rw [envOf_eval goodPeriod _ 45 12 "NW" true periodFields_good]
  refine ⟨by decide!, by decide!, by norm_num⟩

/-- Claim C9: every observation a successful fetch returns has the
constant pressure 29.9, whatever the city and the responses. -/
theorem pressure_never_fetched :
    ∀ (city : String) (env : FetchEnv) (o : WeatherObservation),
      get_weather_data city env = Except.ok o → o.pressure_in = 29.9 := by
  intro city env o h
  obtain ⟨pp, cur, temp, v, wd, day, hpp, hcur, hper, ho⟩ := get_ok_inv city env o h
  subst ho
  rfl

lemma gridExtract_fst (props : GridProps) :
    (gridExtract props).1 = (humidityStep props).getD 50 := by
  unfold gridExtract
  cases humidityStep props with
  | none => rfl
  | some h =>
    cases visibilityStep props with
    | none => rfl
    | some vis =>
      cases precipStep props with
      | none => rfl
      | some p => rfl

lemma humidityStep_eq_zero (props : GridProps)
    (h : humidityStep props = some 0) :
    ∃ (e : GridEntry) (rest : List GridEntry) (s : String),
      props.relativeHumidity = some (e :: rest) ∧ e.value = .jstr s ∧
      parseFloat s = some 0 := by
  unfold humidityStep at h
  split at h
  · rename_i e rest heq
    split at h
    · rename_i htr
      rcases hv : e.value with _ | q | s
      · rw [hv] at htr; simp [truthy] at htr
      · rw [hv] at htr h
        simp [truthy] at htr
        simp [jfloat] at h
        exact absurd h htr
      · rw [hv] at h
        exact ⟨e, rest, s, heq, hv, by simpa [jfloat] using h⟩
    · simp at h
  · simp at h

/-- Claim C10 (amended): a present humidity value that is the number 0
is falsy, so the default 50 is used; but the truthiness test precedes
the float() coercion, so humidity 0 in a successful observation is
reachable, exactly through a truthy string value that parses to 0. -/
theorem humidity_zero_truthiness :
    (∀ (props : GridProps) (e : GridEntry) (rest : List GridEntry),
      props.relativeHumidity = some (e :: rest) → e.value = .jnum 0 →
      (gridExtract props).1 = 50)
    ∧ (∀ (city : String) (env : FetchEnv) (o : WeatherObservation),
      get_weather_data city env = Except.ok o → o.humidity_pct = 0 →
      ∃ (props : GridProps) (e : GridEntry) (rest : List GridEntry) (s : String),
        env.grid = .resp 200 (some props) ∧
        props.relativeHumidity = some (e :: rest) ∧ e.value = .jstr s ∧
        parseFloat s = some 0) := by
  constructor
  · intro props e rest h1 h2
    rw [gridExtract_fst]
    simp [humidityStep, h1, h2, truthy]
  · intro city env o hok h0
    obtain ⟨pp, cur, temp, v, wd, day, hpp, hcur, hper, ho⟩ := get_ok_inv city env o hok
    subst ho
    simp only [gridStage] at h0
    split at h0
    · rcases hg : env.grid with _ | _ | ⟨st, b⟩
      · rw [hg] at h0; norm_num [gridCall] at h0
      · rw [hg] at h0; norm_num [gridCall] at h0
      · rw [hg] at h0
        simp only [gridCall] at h0
        split at h0
        · rename_i hst
          subst hst
          rcases b with _ | props
          · norm_num at h0
          · dsimp only [] at h0
            rw [gridExtract_fst] at h0
            rcases hh : humidityStep props with _ | hq
            · rw [hh] at h0; norm_num at h0
            · rw [hh] at h0
              simp only [Option.getD] at h0
              obtain ⟨e, rest, s, hrh, hv, hps⟩ :=
                humidityStep_eq_zero props (by rw [hh, h0])
              exact ⟨props, e, rest, s, rfl, hrh, hv, hps⟩
        · norm_num at h0
    · norm_num at h0

/-- Claim C10, counterexample: a grid humidity value that is the string
"0" is truthy and floats to 0, so a successful fetch reports humidity
0. -/
theorem humidity_zero_string_cex :
    (get_weather_data "detroit" (envOf goodPeriod (.resp 200 (some gridHumStr0)))).map
        WeatherObservation.humidity_pct = Except.ok 0 := by
  rw [envOf_eval goodPeriod _ 45 12 "NW" true periodFields_good]
  decide!

lemma strictSortedB_chain' : ∀ l : List String, strictSortedB l = true →
    List.Chain' (fun a b : String => strLt a b = true) l
  | [] => fun _ => List.chain'_nil
  | [a] => fun _ => by simp
  | a :: b :: rest => fun h => by
    rw [strictSortedB] at h
    simp only [Bool.and_eq_true] at h
    exact List.chain'_cons.mpr ⟨h.1, strictSortedB_chain' (b :: rest) h.2⟩

/-- Claim C4: a first forecast period missing one of the four required
fields makes the extraction fail with a MalformedResponse error naming
the field, and such an extraction error makes the whole fetch return
that error and no observation. -/
theorem missing_field_malformed :
    (∀ cur : ForecastPeriod, cur.temperature = none →
      periodFields cur = .error (.missingField "temperature"))
    ∧ (∀ (cur : ForecastPeriod) (t : ℚ), cur.temperature = some t →
      cur.windSpeed = none → periodFields cur = .error (.missingField "windSpeed"))
    ∧ (∀ (cur : ForecastPeriod) (t : ℚ) (ws : String) (v : ℚ),
      cur.temperature = some t → cur.windSpeed = some ws → parseWindSpeed ws = some v →
      cur.windDirection = none → periodFields cur = .error (.missingField "windDirection"))
    ∧ (∀ (cur : ForecastPeriod) (t : ℚ) (ws : String) (v : ℚ) (wd : String),
      cur.temperature = some t → cur.windSpeed = some ws → parseWindSpeed ws = some v →
      cur.windDirection = some wd → cur.isDaytime = none →
      periodFields cur = .error (.missingField "isDaytime"))
    ∧ (∀ (city : String) (env : FetchEnv) (q : ℚ × ℚ) (pp : PointsProps)
        (cur : ForecastPeriod) (e : FetchErr),
      resolveCoord city = some q → pointsStage env.points = Except.ok pp →
      forecastStage env.forecast = Except.ok cur → periodFields cur = Except.error e →
      get_weather_data city env = Except.error e) := by
  refine ⟨?_, ?_, ?_, ?_, ?_⟩
  · intro cur h; simp [periodFields, h]
  · intro cur t h1 h2; simp [periodFields, h1, h2]
  · intro cur t ws v h1 h2 h3 h4; simp [periodFields, h1, h2, h3, h4]
  · intro cur t ws v wd h1 h2 h3 h4 h5; simp [periodFields, h1, h2, h3, h4, h5]
  · intro city env q pp cur e h1 h2 h3 h4
    unfold get_weather_data
    simp only [h1, h2, h3, h4]

/-- Witness for C4: a period with no temperature fails the fetch with
the MalformedResponse error naming temperature. -/
theorem missing_field_malformed_witness :
    get_weather_data "detroit" (envOf noTempPeriod .timeout)
      = Except.error (.missingField "temperature") :=
  missing_field_malformed.2.2.2.2 "detroit" (envOf noTempPeriod .timeout)
    (42.3314, -83.0458) ⟨true, true⟩ noTempPeriod (.missingField "temperature")
    resolveCoord_detroit rfl rfl (missing_field_malformed.1 noTempPeriod rfl)

/-- Claim C5: city resolution lowercases and strips the input before the
table lookup, so it is case- and whitespace-insensitive and returns the
stored coordinate; in particular two spaces around DETROIT resolve to
(42.3314, -83.0458). -/
theorem city_resolution_insensitive :
    (∀ (s : String) (p : String × ℚ × ℚ), p ∈ michigan_cities →
      pyStrip (pyLower s) = p.1 → resolveCoord s = some p.2)
    ∧ resolveCoord "  DETROIT  " = some (42.3314, -83.0458) := by
  constructor
  · intro s p hp h
    unfold resolveCoord
    rw [h]
    fin_cases hp <;> decide!
  · decide!

/-- Witness for C5: the padded uppercase input resolves to the Detroit
entry of the table. -/
theorem city_resolution_insensitive_witness :
    resolveCoord "  DETROIT  " = some (42.3314, -83.0458) :=
  city_resolution_insensitive.1 "  DETROIT  " ("detroit", 42.3314, -83.0458)
    (by decide!) (by decide)

/-- Claim C6: an input whose normalized form is not a table key makes the
fetch fail with CityNotFound carrying the suggestion list, which is
strictly alphabetically sorted and contains the title-cased form of
every supported key. -/
theorem city_not_found_suggestions :
    (∀ (s : String) (env : FetchEnv), resolveCoord s = none →
      get_weather_data s env = .error (.cityNotFound s availableCities))
    ∧ List.Chain' (fun a b : String => strLt a b = true) availableCities
    ∧ (∀ p ∈ michigan_cities, titleCase p.1 ∈ availableCities) := by
  refine ⟨?_, strictSortedB_chain' availableCities (by decide), ?_⟩
  · intro s env h
    unfold get_weather_data
    simp only [h]
  · intro p hp
    fin_cases hp <;> decide

/-- Witness for C6: the unsupported input Chicago fails with the full
suggestion list, and the Detroit key appears title-cased in it. -/
theorem city_not_found_suggestions_witness :
    get_weather_data "Chicago" (envOf goodPeriod .timeout)
      = Except.error (.cityNotFound "Chicago" availableCities)
    ∧ titleCase "detroit" ∈ availableCities :=
  ⟨city_not_found_suggestions.1 "Chicago" (envOf goodPeriod .timeout) (by decide),
   city_not_found_suggestions.2.2 ("detroit", 42.3314, -83.0458) (by decide!)⟩

/-- Claim C7, counterexample: the sixteen-point direction NNW passes
through the fetch unchanged, so the observation's wind direction is not
one of the eight compass points. -/
theorem wind_direction_outside_compass_cex :
    (get_weather_data "detroit" (envOf nnwPeriod .timeout)).map
        WeatherObservation.wind_direction = Except.ok "NNW"
    ∧ (["N", "NE", "E", "SE", "S", "SW", "W", "NW"] : List String).contains "NNW" = false := by
  constructor
  · rw [envOf_eval nnwPeriod _ 45 12 "NNW" true (by decide!)]
    rfl
  · decide

/-- Claim C7 (amended): the literal Calm becomes N and every other
windDirection string passes through unchanged, in particular the eight
compass points; strings outside that set are not filtered. -/
theorem wind_direction_normalization :
    normalizeWindDir "Calm" = "N"
    ∧ (∀ wd : String, wd ≠ "Calm" → normalizeWindDir wd = wd)
    ∧ (∀ wd ∈ (["N", "NE", "E", "SE", "S", "SW", "W", "NW"] : List String),
        normalizeWindDir wd = wd) := by
  refine ⟨by decide, ?_, ?_⟩
  · intro wd h; simp [normalizeWindDir, h]
  · intro wd h; fin_cases h <;> decide

/-- Witness for C7: two of the compass points pass through unchanged. -/
theorem wind_direction_normalization_witness :
    normalizeWindDir "NW" = "NW" ∧ normalizeWindDir "SE" = "SE" :=
  ⟨wind_direction_normalization.2.1 "NW" (by decide),
   wind_direction_normalization.2.2 "SE" (by decide)⟩

/-- Claim C8, counterexample: the range string does parse (to its first
number) and the fetch succeeds rather than failing. -/
theorem wind_speed_range_cex :
    isSuccess (get_weather_data "detroit" (envOf rangePeriod .timeout)) = true
    ∧ parseWindSpeed "10 to 15 mph" = some 10 := by
  constructor
  · rw [envOf_eval rangePeriod _ 45 10 "NW" true (by decide!)]
    rfl
  · decide!

/-- Claim C8 (amended): a range-form windSpeed string yields the leading
numeric token, and the fetch succeeds carrying that wind speed. -/
theorem wind_speed_range_first_token :
    parseWindSpeed "10 to 15 mph" = some 10
    ∧ (get_weather_data "detroit" (envOf rangePeriod .timeout)).map
        WeatherObservation.wind_speed_mph = Except.ok 10 := by
  constructor
  · decide!
  · rw [envOf_eval rangePeriod _ 45 10 "NW" true (by decide!)]
    rfl

/-- Claim C3, counterexample: a visibility series whose first value is
null yields 10000 meters converted to miles, not the 10.0-mile
default. -/
theorem visibility_null_cex :
    (get_weather_data "detroit" (envOf goodPeriod (.resp 200 (some gridVisNull)))).map
        WeatherObservation.visibility_mi = Except.ok (10000 / 1609.34)
    ∧ (10000 / 1609.34 : ℚ) < 10 := by
  rw [envOf_eval goodPeriod _ 45 12 "NW" true periodFields_good]
  constructor
  · decide!
  · decide!

/-- Claim C3 (amended): when the visibility series is present and its
first value is absent or null, the code substitutes 10000 meters and
converts, so the visibility assignment yields 10000 / 1609.34, about
6.21 miles. -/
theorem visibility_series_null_meters (props : GridProps) (e : GridEntry)
    (rest : List GridEntry) (h1 : props.visibility = some (e :: rest))
    (h2 : e.value = .jnull) : visibilityStep props = some (10000 / 1609.34) := by
  simp [visibilityStep, h1, h2, truthy]

/-- Witness for C3 (amended): a concrete grid response with a null first
visibility value. -/
theorem visibility_series_null_meters_witness :
    visibilityStep ⟨none, some [⟨.jnull⟩], none⟩ = some (10000 / 1609.34) :=
  visibility_series_null_meters ⟨none, some [⟨.jnull⟩], none⟩ ⟨.jnull⟩ [] rfl rfl

/-- Witness for C2: with the grid request timing out, the fetch still
succeeds and the observation carries the three defaults. -/
theorem grid_enrichment_nonfatal_witness :
    obsW.humidity_pct = 50 ∧ obsW.visibility_mi = 10.0 ∧ obsW.precipitation_in = 0.0 :=
  grid_enrichment_nonfatal.1 "detroit" (envOf goodPeriod .timeout) obsW
    (by rw [envOf_eval goodPeriod _ 45 12 "NW" true periodFields_good]; rfl)
    (Or.inr trivial)

/-- Witness for C9: the observation of a concrete successful fetch has
pressure 29.9. -/
theorem pressure_never_fetched_witness : obsW.pressure_in = 29.9 :=
  pressure_never_fetched "detroit" (envOf goodPeriod .timeout) obsW
    (by rw [envOf_eval goodPeriod _ 45 12 "NW" true periodFields_good]; rfl)

/-- Witness for C10: a grid humidity value that is the number 0 yields
the default 50, and an observation that does report humidity 0 traces
back to a string-typed grid value parsing to 0. -/
theorem humidity_zero_truthiness_witness :
    (gridExtract gridHum0).1 = 50
    ∧ (∃ (props : GridProps) (e : GridEntry) (rest : List GridEntry) (s : String),
        (envOf goodPeriod (.resp 200 (some gridHumStr0))).grid = .resp 200 (some props)
        ∧ props.relativeHumidity = some (e :: rest) ∧ e.value = .jstr s
        ∧ parseFloat s = some 0) :=
  ⟨humidity_zero_truthiness.1 gridHum0 ⟨.jnum 0⟩ [] rfl rfl,
   humidity_zero_truthiness.2 "detroit"
     (envOf goodPeriod (.resp 200 (some gridHumStr0))) obsHumStr0
     (by rw [envOf_eval goodPeriod _ 45 12 "NW" true periodFields_good, gridCall_str0]; rfl)
     rfl⟩
